import Mathlib

/-!
Verification of the Incus-instance reconciliation logic of the
ansible-truenas collection.

The development shallowly embeds two Python sources:
  - plugins/module_utils/rest_api.py  (RestApiClient, ApiResponse)
  - plugins/modules/truenas_incus_instance.py (get_instance,
    create_instance, start/stop/restart/delete_instance, wait_for_state,
    main)

Python JSON values are modelled by the inductive `Json`; Python dict
operations that can raise (None.get, subscripting a missing key) return
`Except PyErr`; a fatal `module.fail_json` aborts the run with a
`Failure.failJson` carrying the exact message string.  HTTP responses and
the wall clock are supplied by an `Env` oracle; every API call and every
`time.sleep` performed by a run is recorded in a trace of `Eff` events,
in order.
-/

/-- Python exception kinds that the embedded code can raise. -/
inductive PyErr where
  | attributeError
  | keyError
  | typeError
deriving DecidableEq

/-- A parsed JSON value (the result of json.loads), also used for the
Python values the module passes around (dicts, lists, strings, ...). -/
inductive Json where
  | null
  | bool (b : Bool)
  | str (s : String)
  | num (n : Int)
  | arr (elems : List Json)
  | obj (fields : List (String × Json))

/-- Association-list lookup for the fields of a JSON object, first key wins
(json.loads produces dicts with unique keys). -/
def lookupField : List (String × Json) → String → Option Json
  | [], _ => none
  | (k', v) :: rest, k => if k' = k then some v else lookupField rest k

/-- Python d.get(k): None for a missing key; AttributeError when the
receiver is not a dict (in particular None.get raises). -/
def Json.get? (j : Json) (k : String) : Except PyErr Json :=
  match j with
  | .obj fs => .ok ((lookupField fs k).getD .null)
  | _ => .error .attributeError

/-- Python d[k]: KeyError for a missing key, TypeError when the receiver
is not subscriptable by a string. -/
def Json.index (j : Json) (k : String) : Except PyErr Json :=
  match j with
  | .obj fs =>
    match lookupField fs k with
    | some v => .ok v
    | none => .error .keyError
  | _ => .error .typeError

/-- Python truthiness of a JSON value (empty dict/list/str and 0 and None
are falsy). -/
def Json.truthy : Json → Bool
  | .null => false
  | .bool b => b
  | .str s => s ≠ ""
  | .num n => n ≠ 0
  | .arr xs => !xs.isEmpty
  | .obj fs => !fs.isEmpty

/-- Python equality of a JSON value against a str literal: equal strings
compare equal, every non-str value compares unequal. -/
def jsonEqStr (v : Json) (s : String) : Bool :=
  match v with
  | .str t => t = s
  | _ => false

/-- Python iteration over a JSON value: a list yields its elements, a dict
its keys, a str its characters; other values raise TypeError. -/
def pyForIter : Json → Except PyErr (List Json)
  | .arr xs => .ok xs
  | .obj fs => .ok (fs.map (fun f => Json.str f.1))
  | .str s => .ok (s.toList.map (fun c => Json.str (String.singleton c)))
  | _ => .error .typeError

/-- Is the value a JSON object (a Python dict)? -/
def Json.isObj : Json → Bool
  | .obj _ => true
  | _ => false

/-- Python None-or-value: the lookup functions return Option Json, the
module code treats the none case as the value None. -/
def optToJson : Option Json → Json
  | none => .null
  | some j => j

/-- Python `a or b` on JSON values. -/
def pyOr (a b : Json) : Json := if a.truthy then a else b

/-- Is pat a prefix of the character list? -/
def charsPrefix : List Char → List Char → Bool
  | [], _ => true
  | _ :: _, [] => false
  | a :: as, b :: bs => a = b && charsPrefix as bs

/-- Does the character list contain pat as a contiguous sublist? -/
def charsContain (pat : List Char) : List Char → Bool
  | [] => charsPrefix pat []
  | c :: rest => charsPrefix pat (c :: rest) || charsContain pat rest

/-- Python `s1 in s2` substring containment. -/
def strContains (s sub : String) : Bool := charsContain sub.toList s.toList

/-! ### rest_api.py -/

/-- The triple (rc, stdout, stderr) that module.run_command returns for
the curl invocation, wrapped by RestApiClient.call into a response. -/
structure ApiResponse where
  rc : Int
  stdout : String
  stderr : String

/-- RestApiClient.call: builds the curl command and runs it via
module.run_command with check_rc=False (modelled by the oracle triple),
then wraps the result.  Total: every invocation returns a response and
never raises. -/
def RestApiClient.call (run_command : Int × String × String) : ApiResponse :=
  ApiResponse.mk run_command.1 run_command.2.1 run_command.2.2

/-- ApiResponse.status_code: an HTTP-like status derived from the curl
return code; rc 0 maps to 200, rc 22 (the curl HTTP-error code) maps to a
code recognised in stderr or the generic 400, every other rc maps
to 500. -/
def ApiResponse.status_code (r : ApiResponse) : Int :=
  if r.rc = 0 then 200
  else if r.rc = 22 then
    if strContains r.stderr "404" then 404
    else if strContains r.stderr "401" then 401
    else if strContains r.stderr "403" then 403
    else if strContains r.stderr "409" then 409
    else if strContains r.stderr "500" then 500
    else 400
  else 500

/-- ApiResponse.json: json.loads(self.stdout) with JSONDecodeError and
ValueError caught and turned into an empty dict.  The parser itself is an
oracle parameter (none models a parse failure that json.loads would
raise). -/
def ApiResponse.jsonVal (parse : String → Option Json) (r : ApiResponse) : Json :=
  (parse r.stdout).getD (.obj [])

/-- ApiResponse.text: stdout when non-empty (truthy), stderr otherwise. -/
def ApiResponse.text (r : ApiResponse) : String :=
  if r.stdout ≠ "" then r.stdout else r.stderr

/-! ### truenas_incus_instance.py : data model -/

/-- One observable effect of a run: an HTTP API call issued through the
RestApiClient, or a time.sleep. -/
inductive Eff where
  | listInstances
  | create (payload : Json)
  | start (iid : Json)
  | stop (iid : Json)
  | restart (iid : Json)
  | delete (iid : Json)
  | sleep (secs : Int)

/-- Does the effect mutate backend state?  Only the list call and sleep
are read-only. -/
def Eff.isMutation : Eff → Bool
  | .create _ => true
  | .start _ => true
  | .stop _ => true
  | .restart _ => true
  | .delete _ => true
  | _ => false

/-- How a run can abort: fail_json with a message, or an uncaught Python
exception. -/
inductive Failure where
  | failJson (msg : String)
  | pyErr (e : PyErr)

/-- The module parameters after AnsibleModule argument parsing.  An
unsupplied optional dict parameter is stored as None (modelled none). -/
structure Params where
  name : String
  state : String
  itype : String
  source : Option Json
  config : Option Json
  devices : Option Json
  wait_for_ipv4 : Bool
  timeout : Int

/-- Oracle for the outside world: the successive responses to the GET
list calls (indexed by how many list calls happened before), the
responses to each mutation endpoint, the json.loads parser, and the
wall-clock readings time.time() takes inside wait_for_state (indexed the
same way as the list calls). -/
structure Env where
  listResp : Nat → ApiResponse
  parse : String → Option Json
  createResp : ApiResponse
  startResp : ApiResponse
  stopResp : ApiResponse
  restartResp : ApiResponse
  deleteResp : ApiResponse
  times : Nat → Int
  startTime : Int

/-- The record exit_json reports: the changed flag and the instance
field of the result dict. -/
structure MResult where
  changed : Bool
  instanceVal : Json

/-! ### truenas_incus_instance.py : functions -/

/-- The scan loop of get_instance: for instance in instances, return the
first whose name field, read with .get, equals the queried name. -/
def scan_for_name (name : String) : List Json → Except PyErr (Option Json)
  | [] => .ok none
  | inst :: rest =>
    match inst.get? "name" with
    | .error e => .error e
    | .ok v => if jsonEqStr v name then .ok (some inst) else scan_for_name name rest

/-- The body of get_instance on one list response: on status 200 parse the
body and scan for the first name match, otherwise return None.  (Each
invocation performs one GET list call, recorded as Eff.listInstances by
the callers.) -/
def get_instance_core (resp : ApiResponse) (parse : String → Option Json)
    (name : String) : Except PyErr (Option Json) :=
  if resp.status_code = 200 then
    match pyForIter (resp.jsonVal parse) with
    | .error e => .error e
    | .ok instances => scan_for_name name instances
  else .ok none

/-- The payload of create_instance: name and type always, source/config/devices
only when the parameter is truthy (Python `if module.params[k]:`). -/
def create_payload (p : Params) : Json :=
  .obj ([("name", Json.str p.name), ("type", Json.str p.itype)]
    ++ (if (optToJson p.source).truthy then [("source", optToJson p.source)] else [])
    ++ (if (optToJson p.config).truthy then [("config", optToJson p.config)] else [])
    ++ (if (optToJson p.devices).truthy then [("devices", optToJson p.devices)] else []))

/-- create_instance: POST the payload; on 200/201 return (True, parsed
body), otherwise fail_json with the response text. -/
def create_instance (env : Env) (p : Params) :
    List Eff × Except Failure (Bool × Json) :=
  let response := env.createResp
  ([Eff.create (create_payload p)],
   if response.status_code = 200 ∨ response.status_code = 201 then
     .ok (true, response.jsonVal env.parse)
   else .error (.failJson ("Failed to create instance: " ++ response.text)))

/-- start_instance: POST to the start sub-path; success on 200/202/409
(409 = already running), otherwise fail_json with the response text. -/
def start_instance (env : Env) (iid : Json) : List Eff × Except Failure Bool :=
  let response := env.startResp
  ([Eff.start iid],
   if response.status_code = 200 ∨ response.status_code = 202 ∨
      response.status_code = 409 then .ok true
   else .error (.failJson ("Failed to start instance: " ++ response.text)))

/-- stop_instance: POST to the stop sub-path; success on 200/202/409
(409 = already stopped), otherwise fail_json with the response text. -/
def stop_instance (env : Env) (iid : Json) : List Eff × Except Failure Bool :=
  let response := env.stopResp
  ([Eff.stop iid],
   if response.status_code = 200 ∨ response.status_code = 202 ∨
      response.status_code = 409 then .ok true
   else .error (.failJson ("Failed to stop instance: " ++ response.text)))

/-- restart_instance: POST to the restart sub-path; success on 200/202
only, otherwise fail_json with the response text. -/
def restart_instance (env : Env) (iid : Json) : List Eff × Except Failure Bool :=
  let response := env.restartResp
  ([Eff.restart iid],
   if response.status_code = 200 ∨ response.status_code = 202 then .ok true
   else .error (.failJson ("Failed to restart instance: " ++ response.text)))

/-- delete_instance: stop the instance first, then DELETE; success on
200/204, otherwise fail_json with the response text. -/
def delete_instance (env : Env) (iid : Json) : List Eff × Except Failure Bool :=
  let stopRun := stop_instance env iid
  match stopRun.2 with
  | .error f => (stopRun.1, .error f)
  | .ok _ =>
    let response := env.deleteResp
    (stopRun.1 ++ [Eff.delete iid],
     if response.status_code = 200 ∨ response.status_code = 204 then .ok true
     else .error (.failJson ("Failed to delete instance: " ++ response.text)))

/-- wait_for_state: while time.time() - start_time < timeout, re-fetch
the instance; return True when its status equals the desired state,
otherwise sleep 2 seconds and retry; once the clock check fails return
False.  The extra fuel argument bounds the recursion (ok none models a
run whose fuel ran out before the loop decided); k counts the list calls
already made, indexing the response and clock oracles. -/
def wait_for_state (env : Env) (name desired : String) (timeout : Int) :
    Nat → Nat → List Eff × Except PyErr (Option Bool)
  | 0, _ => ([], .ok none)
  | fuel + 1, k =>
    if env.times k - env.startTime < timeout then
      match get_instance_core (env.listResp k) env.parse name with
      | .error e => ([Eff.listInstances], .error e)
      | .ok r =>
        let inst := optToJson r
        if inst.truthy then
          match inst.get? "status" with
          | .error e => ([Eff.listInstances], .error e)
          | .ok v =>
            if jsonEqStr v desired then ([Eff.listInstances], .ok (some true))
            else
              let rest := wait_for_state env name desired timeout fuel (k + 1)
              (Eff.listInstances :: Eff.sleep 2 :: rest.1, rest.2)
        else
          let rest := wait_for_state env name desired timeout fuel (k + 1)
          (Eff.listInstances :: Eff.sleep 2 :: rest.1, rest.2)
    else ([], .ok (some false))

/-- The autostart test in the present branch of main: the config entry of
module.params is read with .get (dict default applies only when the key is
absent), then its boot.autostart entry is compared to the string true.  The
params dict always carries the config key (AnsibleModule stores None
when the option is unsupplied), so the dict-level default never applies
and the attribute access raises on None. -/
def autostart_of (config : Option Json) : Except PyErr Bool :=
  match config with
  | none => .error .attributeError
  | some j =>
    match j.get? "boot.autostart" with
    | .error e => .error e
    | .ok v => .ok (jsonEqStr v "true")

/-- The reconciliation in main, after argument parsing and client setup: look
the instance up once, then branch on the desired state exactly as the
Python if/elif chain does.  check_mode = true is Ansible check mode.
Returns none when the wait_for_state fuel ran out (a run the finite oracle
cannot decide), otherwise the effect trace and the outcome: the exit_json
result record or the Failure that aborted the run. -/
def mainRun (p : Params) (check_mode : Bool) (env : Env) (fuel : Nat) :
    Option (List Eff × Except Failure MResult) :=
  match get_instance_core (env.listResp 0) env.parse p.name with
  | .error e => some ([Eff.listInstances], .error (.pyErr e))
  | .ok r =>
    let inst := optToJson r
    if p.state = "present" then
      if inst.truthy = false then
        if check_mode = false then
          let createRun := create_instance env p
          match createRun.2 with
          | .error f => some (Eff.listInstances :: createRun.1, .error f)
          | .ok (chg, newInst) =>
            if newInst.truthy then
              match autostart_of p.config with
              | .error e => some (Eff.listInstances :: createRun.1, .error (.pyErr e))
              | .ok b =>
                if b then
                  match newInst.index "id" with
                  | .error e => some (Eff.listInstances :: createRun.1, .error (.pyErr e))
                  | .ok iid =>
                    let startRun := start_instance env iid
                    match startRun.2 with
                    | .error f =>
                      some (Eff.listInstances :: (createRun.1 ++ startRun.1), .error f)
                    | .ok _ =>
                      some (Eff.listInstances :: (createRun.1 ++ startRun.1),
                            .ok ⟨chg, pyOr newInst (.obj [])⟩)
                else some (Eff.listInstances :: createRun.1, .ok ⟨chg, pyOr newInst (.obj [])⟩)
            else some (Eff.listInstances :: createRun.1, .ok ⟨chg, pyOr newInst (.obj [])⟩)
        else some ([Eff.listInstances], .ok ⟨true, pyOr inst (.obj [])⟩)
      else some ([Eff.listInstances], .ok ⟨false, pyOr inst (.obj [])⟩)
    else if p.state = "absent" then
      if inst.truthy then
        if check_mode = false then
          match inst.index "id" with
          | .error e => some ([Eff.listInstances], .error (.pyErr e))
          | .ok iid =>
            let deleteRun := delete_instance env iid
            match deleteRun.2 with
            | .error f => some (Eff.listInstances :: deleteRun.1, .error f)
            | .ok chg => some (Eff.listInstances :: deleteRun.1, .ok ⟨chg, .obj []⟩)
        else some ([Eff.listInstances], .ok ⟨true, .obj []⟩)
      else some ([Eff.listInstances], .ok ⟨false, .obj []⟩)
    else if p.state = "started" then
      if inst.truthy then
        match inst.get? "status" with
        | .error e => some ([Eff.listInstances], .error (.pyErr e))
        | .ok v =>
          if jsonEqStr v "Running" = false then
            if check_mode = false then
              match inst.index "id" with
              | .error e => some ([Eff.listInstances], .error (.pyErr e))
              | .ok iid =>
                let startRun := start_instance env iid
                match startRun.2 with
                | .error f => some (Eff.listInstances :: startRun.1, .error f)
                | .ok chg =>
                  let waitRun := wait_for_state env p.name "Running" p.timeout fuel 1
                  match waitRun.2 with
                  | .error e =>
                    some (Eff.listInstances :: (startRun.1 ++ waitRun.1), .error (.pyErr e))
                  | .ok none => none
                  | .ok (some _) =>
                    some (Eff.listInstances :: (startRun.1 ++ waitRun.1), .ok ⟨chg, inst⟩)
            else some ([Eff.listInstances], .ok ⟨true, inst⟩)
          else some ([Eff.listInstances], .ok ⟨false, inst⟩)
      else some ([Eff.listInstances],
                 .error (.failJson ("Instance " ++ p.name ++ " does not exist")))
    else if p.state = "stopped" then
      if inst.truthy then
        match inst.get? "status" with
        | .error e => some ([Eff.listInstances], .error (.pyErr e))
        | .ok v =>
          if jsonEqStr v "Stopped" = false then
            if check_mode = false then
              match inst.index "id" with
              | .error e => some ([Eff.listInstances], .error (.pyErr e))
              | .ok iid =>
                let stopRun := stop_instance env iid
                match stopRun.2 with
                | .error f => some (Eff.listInstances :: stopRun.1, .error f)
                | .ok chg =>
                  let waitRun := wait_for_state env p.name "Stopped" p.timeout fuel 1
                  match waitRun.2 with
                  | .error e =>
                    some (Eff.listInstances :: (stopRun.1 ++ waitRun.1), .error (.pyErr e))
                  | .ok none => none
                  | .ok (some _) =>
                    some (Eff.listInstances :: (stopRun.1 ++ waitRun.1), .ok ⟨chg, inst⟩)
            else some ([Eff.listInstances], .ok ⟨true, inst⟩)
          else some ([Eff.listInstances], .ok ⟨false, inst⟩)
      else some ([Eff.listInstances],
                 .error (.failJson ("Instance " ++ p.name ++ " does not exist")))
    else if p.state = "restarted" then
      if inst.truthy then
        if check_mode = false then
          match inst.index "id" with
          | .error e => some ([Eff.listInstances], .error (.pyErr e))
          | .ok iid =>
            let restartRun := restart_instance env iid
            match restartRun.2 with
            | .error f => some (Eff.listInstances :: restartRun.1, .error f)
            | .ok chg =>
              let waitRun := wait_for_state env p.name "Running" p.timeout fuel 1
              match waitRun.2 with
              | .error e =>
                some (Eff.listInstances :: (restartRun.1 ++ waitRun.1), .error (.pyErr e))
              | .ok none => none
              | .ok (some _) =>
                some (Eff.listInstances :: (restartRun.1 ++ waitRun.1), .ok ⟨chg, inst⟩)
        else some ([Eff.listInstances], .ok ⟨true, inst⟩)
      else some ([Eff.listInstances],
                 .error (.failJson ("Instance " ++ p.name ++ " does not exist")))
    else some ([Eff.listInstances], .ok ⟨false, .obj []⟩)

/-! ### Statement-side characterisations and concrete fixtures -/

/-- Statement-side: the name field of a list element (None when missing
or when the element is not a dict) equals the queried name. -/
def nameMatches (name : String) (x : Json) : Bool :=
  match x with
  | .obj fs => jsonEqStr ((lookupField fs "name").getD .null) name
  | _ => false

/-- Statement-side: the status field of an instance value, None when
missing or when the value is not a dict. -/
def jsonStatus (j : Json) : Json :=
  match j with
  | .obj fs => (lookupField fs "status").getD .null
  | _ => .null

/-- Modelled from the spec: the changed flag of the reconciliation
transition table (spec section 4.5).  present is satisfied by presence
alone, absent by absence, started/stopped act exactly when the reported
status differs from Running/Stopped, restarted always acts when the
instance exists; none encodes the fatal not-found error of the three
action states on a missing instance; a state outside the table reports
no change. -/
def table_changed (state : String) (inst : Json) : Option Bool :=
  if state = "present" then some (!inst.truthy)
  else if state = "absent" then some inst.truthy
  else if state = "started" then
    if inst.truthy then some (!jsonEqStr (jsonStatus inst) "Running") else none
  else if state = "stopped" then
    if inst.truthy then some (!jsonEqStr (jsonStatus inst) "Stopped") else none
  else if state = "restarted" then
    if inst.truthy then some true else none
  else some false

/-- A concrete backend instance record used by the concrete runs. -/
def instStopped : Json :=
  .obj [("id", Json.str "123"), ("name", Json.str "matchbox"),
        ("status", Json.str "Stopped")]

/-- A concrete json.loads oracle for the concrete runs: two list bodies
and one instance body parse, everything else fails to parse. -/
def testParse : String → Option Json := fun s =>
  if s = "LIST_EMPTY" then some (Json.arr [])
  else if s = "LIST_ONE" then some (Json.arr [instStopped])
  else if s = "INSTANCE_BODY" then some instStopped
  else none

/-- A concrete environment: the list call returns an empty collection,
the create call returns the instance body, every mutation endpoint
answers with curl rc 0 (status 200), and the clock never advances. -/
def env0 : Env :=
  { listResp := fun _ => ⟨0, "LIST_EMPTY", ""⟩
    parse := testParse
    createResp := ⟨0, "INSTANCE_BODY", ""⟩
    startResp := ⟨0, "", ""⟩
    stopResp := ⟨0, "", ""⟩
    restartResp := ⟨0, "", ""⟩
    deleteResp := ⟨0, "", ""⟩
    times := fun _ => 0
    startTime := 0 }

/-- A concrete environment whose list call finds instStopped and whose
clock starts beyond the timeout, so any poll times out at once. -/
def env1 : Env :=
  { listResp := fun _ => ⟨0, "LIST_ONE", ""⟩
    parse := testParse
    createResp := ⟨0, "INSTANCE_BODY", ""⟩
    startResp := ⟨0, "", ""⟩
    stopResp := ⟨0, "", ""⟩
    restartResp := ⟨0, "", ""⟩
    deleteResp := ⟨0, "", ""⟩
    times := fun _ => 100
    startTime := 0 }

/-- Concrete parameters: desired state present for the instance named
matchbox, with no source, config or devices supplied. -/
def params0 : Params :=
  { name := "matchbox", state := "present", itype := "CONTAINER",
    source := none, config := none, devices := none,
    wait_for_ipv4 := false, timeout := 60 }

/-- Concrete parameters: desired state started for matchbox. -/
def params1 : Params :=
  { name := "matchbox", state := "started", itype := "CONTAINER",
    source := none, config := none, devices := none,
    wait_for_ipv4 := false, timeout := 60 }

/-! ### Helper lemmas -/

/-- On a list of dict elements the scan loop returns exactly the first
element whose name field equals the query. -/
theorem scan_for_name_eq_find (name : String) :
    ∀ xs : List Json, (∀ x ∈ xs, x.isObj = true) →
      scan_for_name name xs = .ok (xs.find? (nameMatches name)) := by
  intro xs
  induction xs with
  | nil => intro _; rfl
  | cons x rest ih =>
    intro hobj
    have hx : x.isObj = true := hobj x (by simp)
    have hrest : ∀ y ∈ rest, y.isObj = true := fun y hy => hobj y (by simp [hy])
    cases x with
    | obj fs =>
      simp only [scan_for_name, Json.get?, List.find?, nameMatches]
      by_cases h : jsonEqStr ((lookupField fs "name").getD Json.null) name
      · simp [h]
      · simp [h, ih hrest]
    | null => simp [Json.isObj] at hx
    | bool b => simp [Json.isObj] at hx
    | str s => simp [Json.isObj] at hx
    | num n => simp [Json.isObj] at hx
    | arr es => simp [Json.isObj] at hx

/-- Whatever list the scan ran over, a found element is a dict (its .get
call on the name key succeeded). -/
theorem scan_for_name_some_isObj (name : String) :
    ∀ (xs : List Json) (j : Json),
      scan_for_name name xs = .ok (some j) → j.isObj = true := by
  intro xs
  induction xs with
  | nil => intro j h; simp [scan_for_name] at h
  | cons x rest ih =>
    intro j h
    cases x with
    | obj fs =>
      simp only [scan_for_name, Json.get?] at h
      split at h
      · simp only [Except.ok.injEq, Option.some.injEq] at h
        subst h; rfl
      · exact ih j h
    | null => simp [scan_for_name, Json.get?] at h
    | bool b => simp [scan_for_name, Json.get?] at h
    | str s => simp [scan_for_name, Json.get?] at h
    | num n => simp [scan_for_name, Json.get?] at h
    | arr es => simp [scan_for_name, Json.get?] at h

/-- An instance the lookup found is always a dict. -/
theorem get_instance_core_some_isObj (resp : ApiResponse)
    (parse : String → Option Json) (name : String) (j : Json)
    (h : get_instance_core resp parse name = .ok (some j)) : j.isObj = true := by
  unfold get_instance_core at h
  split at h
  · cases hit : pyForIter (resp.jsonVal parse) with
    | error e => rw [hit] at h; simp at h
    | ok lst =>
      rw [hit] at h
      exact scan_for_name_some_isObj name lst j h
  · simp at h

/-- Reading the status field of a dict with .get succeeds and gives the
statement-side jsonStatus value. -/
theorem get_status_of_obj (j : Json) (hobj : j.isObj = true) :
    j.get? "status" = .ok (jsonStatus j) := by
  cases j with
  | obj fs => rfl
  | null => simp [Json.isObj] at hobj
  | bool b => simp [Json.isObj] at hobj
  | str s => simp [Json.isObj] at hobj
  | num n => simp [Json.isObj] at hobj
  | arr es => simp [Json.isObj] at hobj

/-! ### Claim theorems -/

/-- C1 counterexample: an application-level HTTP 500 carried by a
successful HTTP-layer round trip (curl rc 22, 500 named in stderr) and a
connection-level failure (curl rc 7, unreachable host) both surface as
the same status code 500, and an application-level 502 surfaces as the
generic 400 rather than 502 — so the connection-failure case and the
application-error case are not distinguishable by the status code the
caller inspects, refuting the claim at these inputs. -/
theorem transport_status_not_distinguishable :
    (RestApiClient.call (22, "", "error: 500")).status_code = 500 ∧
    (RestApiClient.call (7, "", "could not connect")).status_code = 500 ∧
    (RestApiClient.call (22, "", "error: 502")).status_code = 400 := by
  refine ⟨?_, ?_, ?_⟩ <;> decide

/-- C1 amended: the call operation never raises — every run_command
triple yields a response whose status code is defined; curl rc 0 maps to
200; a connection-level failure (rc other than 0 and 22) surfaces as the
server-error status 500; an HTTP-layer application error (rc 22)
surfaces as one of 404, 401, 403, 409, 500, or the generic 400 — a
4xx/5xx class code, but not always the distinct application status, and
an application-level 500 coincides with the connection-failure code. -/
theorem transport_status_code_classification (run : Int × String × String) :
    ((RestApiClient.call run).rc = 0 → (RestApiClient.call run).status_code = 200) ∧
    ((RestApiClient.call run).rc = 22 →
      (RestApiClient.call run).status_code = 404 ∨
      (RestApiClient.call run).status_code = 401 ∨
      (RestApiClient.call run).status_code = 403 ∨
      (RestApiClient.call run).status_code = 409 ∨
      (RestApiClient.call run).status_code = 500 ∨
      (RestApiClient.call run).status_code = 400) ∧
    ((RestApiClient.call run).rc ≠ 0 → (RestApiClient.call run).rc ≠ 22 →
      (RestApiClient.call run).status_code = 500) := by
  obtain ⟨rc, out, err⟩ := run
  refine ⟨?_, ?_, ?_⟩
  · intro h
    simp only [RestApiClient.call] at h ⊢
    simp [ApiResponse.status_code, h]
  · intro h
    simp only [RestApiClient.call] at h ⊢
    by_cases h4 : strContains err "404" <;>
    by_cases h1 : strContains err "401" <;>
    by_cases h3 : strContains err "403" <;>
    by_cases h9 : strContains err "409" <;>
    by_cases h5 : strContains err "500" <;>
    simp [ApiResponse.status_code, h, h4, h1, h3, h9, h5]
  · intro h0 h22
    simp only [RestApiClient.call] at h0 h22 ⊢
    simp [ApiResponse.status_code, h0, h22]

/-- C1 amended, witness: a concrete connection-level failure surfaces as
status 500. -/
theorem transport_status_code_classification_witness :
    (RestApiClient.call (7, "out", "err")).status_code = 500 :=
  (transport_status_code_classification (7, "out", "err")).2.2
    (by decide) (by decide)

/-- C2: evaluating the code at the failing input.  Desired state present,
no existing instance, config not supplied (stored as None by the
argument parser): the create call succeeds and returns the instance
body, then the auto-start test calls .get on None and the run aborts
with AttributeError instead of reporting changed=true — the claim fails
on the code for an unsupplied config even though the spec clearly
intends the create to succeed with no auto-start. -/
theorem present_missing_config_raises :
    mainRun params0 false env0 1 =
      some ([Eff.listInstances,
             Eff.create (Json.obj [("name", Json.str "matchbox"),
                                   ("type", Json.str "CONTAINER")])],
            .error (.pyErr .attributeError)) := by
  rfl

/-- C3: start and stop succeed exactly when the POST returns status 200,
202 or 409 (409, already in the target state, is a no-op success),
restart succeeds exactly on 200 or 202; for every status outside the
accepted set the invocation aborts with a fatal error whose message
embeds the response text. -/
theorem action_status_classification (env : Env) (iid : Json) :
    ((env.startResp.status_code = 200 ∨ env.startResp.status_code = 202 ∨
        env.startResp.status_code = 409) →
      start_instance env iid = ([Eff.start iid], .ok true)) ∧
    (¬(env.startResp.status_code = 200 ∨ env.startResp.status_code = 202 ∨
        env.startResp.status_code = 409) →
      start_instance env iid = ([Eff.start iid],
        .error (.failJson ("Failed to start instance: " ++ env.startResp.text)))) ∧
    ((env.stopResp.status_code = 200 ∨ env.stopResp.status_code = 202 ∨
        env.stopResp.status_code = 409) →
      stop_instance env iid = ([Eff.stop iid], .ok true)) ∧
    (¬(env.stopResp.status_code = 200 ∨ env.stopResp.status_code = 202 ∨
        env.stopResp.status_code = 409) →
      stop_instance env iid = ([Eff.stop iid],
        .error (.failJson ("Failed to stop instance: " ++ env.stopResp.text)))) ∧
    ((env.restartResp.status_code = 200 ∨ env.restartResp.status_code = 202) →
      restart_instance env iid = ([Eff.restart iid], .ok true)) ∧
    (¬(env.restartResp.status_code = 200 ∨ env.restartResp.status_code = 202) →
      restart_instance env iid = ([Eff.restart iid],
        .error (.failJson ("Failed to restart instance: " ++ env.restartResp.text)))) := by
  refine ⟨?_, ?_, ?_, ?_, ?_, ?_⟩ <;> intro h <;>
    simp [start_instance, stop_instance, restart_instance, h]

/-- C3 witness: a concrete 409 response to the start POST is reported as
success. -/
theorem action_status_classification_witness :
    start_instance
      { env1 with startResp := ⟨22, "", "error: 409"⟩ } (Json.str "123") =
      ([Eff.start (Json.str "123")], .ok true) :=
  (action_status_classification
      { env1 with startResp := ⟨22, "", "error: 409"⟩ } (Json.str "123")).1
    (by decide)

/-- C4: delete always issues the stop call first; when the stop is
accepted the DELETE follows as the second call and succeeds exactly on
status 200 or 204, while any other DELETE status aborts with a fatal
error embedding the response text; and the absent branch of main runs
this stop-then-delete sequence for whatever instance the lookup
returned, regardless of its status field. -/
theorem delete_stops_before_delete (env : Env) (iid : Json) :
    (delete_instance env iid).1.head? = some (Eff.stop iid) ∧
    ((env.stopResp.status_code = 200 ∨ env.stopResp.status_code = 202 ∨
        env.stopResp.status_code = 409) →
      ((delete_instance env iid).1 = [Eff.stop iid, Eff.delete iid] ∧
       ((env.deleteResp.status_code = 200 ∨ env.deleteResp.status_code = 204) →
         (delete_instance env iid).2 = .ok true) ∧
       (¬(env.deleteResp.status_code = 200 ∨ env.deleteResp.status_code = 204) →
         (delete_instance env iid).2 =
           .error (.failJson ("Failed to delete instance: " ++ env.deleteResp.text))))) ∧
    (¬(env.stopResp.status_code = 200 ∨ env.stopResp.status_code = 202 ∨
        env.stopResp.status_code = 409) →
      delete_instance env iid = ([Eff.stop iid],
        .error (.failJson ("Failed to stop instance: " ++ env.stopResp.text)))) ∧
    (∀ (p : Params) (fuel : Nat) (j : Json), p.state = "absent" →
      get_instance_core (env.listResp 0) env.parse p.name = .ok (some j) →
      j.truthy = true → j.index "id" = .ok iid →
      mainRun p false env fuel =
        some (Eff.listInstances :: (delete_instance env iid).1,
              Except.map (fun chg => MResult.mk chg (Json.obj []))
                (delete_instance env iid).2)) := by
  refine ⟨?_, ?_, ?_, ?_⟩
  · by_cases h : env.stopResp.status_code = 200 ∨ env.stopResp.status_code = 202 ∨
        env.stopResp.status_code = 409 <;>
      simp [delete_instance, stop_instance, h]
  · intro h
    refine ⟨?_, ?_, ?_⟩
    · simp [delete_instance, stop_instance, h]
    · intro hd; simp [delete_instance, stop_instance, h, hd]
    · intro hd; simp [delete_instance, stop_instance, h, hd]
  · intro h
    simp [delete_instance, stop_instance, h]
  · intro p fuel j hstate hlk htr hiid
    unfold mainRun
    rw [hlk]
    simp only [hstate, optToJson]
    norm_num
    rw [hiid]
    cases hd : (delete_instance env iid).2 with
    | error f => simp [htr, hd, Except.map]
    | ok chg => simp [htr, hd, Except.map]

/-- C4 witness: under concrete accepted responses, the delete run issues
exactly stop then delete, in that order, and succeeds. -/
theorem delete_stops_before_delete_witness :
    (delete_instance env1 (Json.str "123")).1 =
      [Eff.stop (Json.str "123"), Eff.delete (Json.str "123")] ∧
    (delete_instance env1 (Json.str "123")).2 = .ok true := by
  have h := (delete_stops_before_delete env1 (Json.str "123")).2.1 (by decide)
  exact ⟨h.1, h.2.1 (by decide)⟩

/-- C5: when the list GET returns status 200 and the body parses to a
collection of records, the lookup returns the first element whose name
field equals the query (first match wins, also on duplicate names); on
any non-200 status it returns absent — the same value as when no
element matches, so the two cases are indistinguishable to the caller. -/
theorem lookup_first_match_or_absent (resp : ApiResponse)
    (parse : String → Option Json) (name : String) (xs : List Json)
    (hobj : ∀ x ∈ xs, x.isObj = true) :
    (resp.status_code = 200 → resp.jsonVal parse = .arr xs →
      get_instance_core resp parse name = .ok (xs.find? (nameMatches name))) ∧
    (resp.status_code ≠ 200 → get_instance_core resp parse name = .ok none) := by
  constructor
  · intro h200 hj
    simp [get_instance_core, h200, hj, pyForIter, scan_for_name_eq_find name xs hobj]
  · intro hne
    simp [get_instance_core, hne]

/-- C5 witness: a concrete duplicate-name collection yields its first
matching element. -/
theorem lookup_first_match_or_absent_witness :
    get_instance_core ⟨0, "LIST_TWO", ""⟩
        (fun s => if s = "LIST_TWO"
                  then some (Json.arr [instStopped,
                    Json.obj [("id", Json.str "999"), ("name", Json.str "matchbox")]])
                  else none)
        "matchbox" = .ok (some instStopped) := by
  have h := (lookup_first_match_or_absent ⟨0, "LIST_TWO", ""⟩
      (fun s => if s = "LIST_TWO"
                then some (Json.arr [instStopped,
                  Json.obj [("id", Json.str "999"), ("name", Json.str "matchbox")]])
                else none)
      "matchbox"
      [instStopped, Json.obj [("id", Json.str "999"), ("name", Json.str "matchbox")]]
      (by intro x hx
          simp only [List.mem_cons, List.mem_singleton] at hx
          rcases hx with h1 | h2 | h3
          · subst h1; rfl
          · subst h2; rfl
          · simp at h3)).1 (by rfl) (by rfl)
  rw [h]
  rfl

/-- C10: the json accessor is total — it returns the parsed value when
the body parses, and the empty dict (never raising) when parsing fails —
and consequently a lookup whose 200 response carries an unparseable body
scans an empty dict and reports absent instead of raising. -/
theorem json_total_and_unparseable_lookup_absent (r : ApiResponse)
    (parse : String → Option Json) (name : String) :
    (∀ v, parse r.stdout = some v → r.jsonVal parse = v) ∧
    (parse r.stdout = none → r.jsonVal parse = .obj []) ∧
    (parse r.stdout = none → r.status_code = 200 →
      get_instance_core r parse name = .ok none) := by
  refine ⟨?_, ?_, ?_⟩
  · intro v hv; simp [ApiResponse.jsonVal, hv]
  · intro hv; simp [ApiResponse.jsonVal, hv]
  · intro hv h200
    simp [get_instance_core, h200, ApiResponse.jsonVal, hv, pyForIter, scan_for_name]

/-- C10 witness: a concrete 200 response whose body does not parse gives
an absent lookup result. -/
theorem json_total_and_unparseable_lookup_absent_witness :
    get_instance_core ⟨0, "garbage", ""⟩ testParse "matchbox" = .ok none :=
  (json_total_and_unparseable_lookup_absent ⟨0, "garbage", ""⟩ testParse
    "matchbox").2.2 (by rfl) (by rfl)

/-- C6: on a clock check inside the timeout the poller returns success
at once when the re-fetched instance has the target status; when the
poll does not match it re-polls after recording a fixed 2-second sleep;
and on the first clock check at or past the timeout it returns false —
a value, not an error. -/
theorem poller_fixed_cadence_and_timeout (env : Env) (name desired : String)
    (timeout : Int) (fuel k : Nat) :
    (¬ env.times k - env.startTime < timeout →
      wait_for_state env name desired timeout (fuel + 1) k = ([], .ok (some false))) ∧
    (env.times k - env.startTime < timeout →
      ∀ j, get_instance_core (env.listResp k) env.parse name = .ok (some j) →
        j.truthy = true → jsonEqStr (jsonStatus j) desired = true →
        wait_for_state env name desired timeout (fuel + 1) k =
          ([Eff.listInstances], .ok (some true))) ∧
    (env.times k - env.startTime < timeout →
      ∀ r, get_instance_core (env.listResp k) env.parse name = .ok r →
        ((optToJson r).truthy = false ∨
          jsonEqStr (jsonStatus (optToJson r)) desired = false) →
        wait_for_state env name desired timeout (fuel + 1) k =
          (Eff.listInstances :: Eff.sleep 2 ::
             (wait_for_state env name desired timeout fuel (k + 1)).1,
           (wait_for_state env name desired timeout fuel (k + 1)).2)) := by
  refine ⟨?_, ?_, ?_⟩
  · intro h
    simp only [wait_for_state]
    rw [if_neg h]
  · intro h j hlk htr hst
    have hobj := get_instance_core_some_isObj (env.listResp k) env.parse name j hlk
    simp only [wait_for_state]
    rw [if_pos h, hlk]
    simp only [optToJson, htr, if_true]
    rw [get_status_of_obj j hobj]
    simp [hst]
  · intro h r hlk hnm
    simp only [wait_for_state]
    rw [if_pos h, hlk]
    cases r with
    | none => simp [optToJson, Json.truthy]
    | some j =>
      have hobj := get_instance_core_some_isObj (env.listResp k) env.parse name j hlk
      simp only [optToJson] at hnm ⊢
      cases htr : j.truthy with
      | false => simp [htr]
      | true =>
        have hst : jsonEqStr (jsonStatus j) desired = false := by
          rcases hnm with h1 | h2
          · rw [htr] at h1; exact absurd h1 (by simp)
          · exact h2
        simp only [htr, if_true]
        rw [get_status_of_obj j hobj]
        simp [hst]

/-- C6 witness: with the clock already past the timeout the poller
returns false immediately, issuing no further call. -/
theorem poller_fixed_cadence_and_timeout_witness :
    wait_for_state env1 "matchbox" "Running" 60 1 0 = ([], .ok (some false)) :=
  (poller_fixed_cadence_and_timeout env1 "matchbox" "Running" 60 0 0).1 (by decide)

/-- C7: for desired states started, stopped and restarted, a lookup that
finds no instance makes the run abort with the fatal message naming the
instance, and the trace holds only the read-only lookup call — no
mutation call is issued; this holds in and out of check mode. -/
theorem action_on_missing_instance_fails (p : Params) (env : Env) (fuel : Nat)
    (check_mode : Bool) (r : Option Json)
    (hlk : get_instance_core (env.listResp 0) env.parse p.name = .ok r)
    (hfalsy : (optToJson r).truthy = false)
    (hstate : p.state = "started" ∨ p.state = "stopped" ∨ p.state = "restarted") :
    mainRun p check_mode env fuel =
      some ([Eff.listInstances],
            .error (.failJson ("Instance " ++ p.name ++ " does not exist"))) := by
  unfold mainRun
  rw [hlk]
  rcases hstate with hs | hs | hs <;> simp [hs, hfalsy]

/-- C7 witness: desired state started on an empty collection aborts with
the not-found message for matchbox. -/
theorem action_on_missing_instance_fails_witness :
    mainRun params1 false env0 1 =
      some ([Eff.listInstances],
            .error (.failJson ("Instance matchbox does not exist"))) := by
  have h := action_on_missing_instance_fails params1 env0 1 false none
    (by rfl) (by rfl) (Or.inl (by rfl))
  exact h

/-- C9: for started, stopped and restarted, when the action call is
accepted but the subsequent poll for the target status times out and
returns false, the run still reports changed=true with the same result
record as a successful poll — the timeout produces no error and no
difference in the reported result. -/
theorem poll_timeout_ignored_by_callers (p : Params) (env : Env) (fuel : Nat)
    (j iid : Json)
    (hlk : get_instance_core (env.listResp 0) env.parse p.name = .ok (some j))
    (htr : j.truthy = true)
    (hiid : j.index "id" = .ok iid) :
    (p.state = "started" → jsonEqStr (jsonStatus j) "Running" = false →
      (start_instance env iid).2 = .ok true →
      (wait_for_state env p.name "Running" p.timeout fuel 1).2 = .ok (some false) →
      mainRun p false env fuel =
        some (Eff.listInstances ::
                ((start_instance env iid).1 ++
                 (wait_for_state env p.name "Running" p.timeout fuel 1).1),
              .ok ⟨true, j⟩)) ∧
    (p.state = "stopped" → jsonEqStr (jsonStatus j) "Stopped" = false →
      (stop_instance env iid).2 = .ok true →
      (wait_for_state env p.name "Stopped" p.timeout fuel 1).2 = .ok (some false) →
      mainRun p false env fuel =
        some (Eff.listInstances ::
                ((stop_instance env iid).1 ++
                 (wait_for_state env p.name "Stopped" p.timeout fuel 1).1),
              .ok ⟨true, j⟩)) ∧
    (p.state = "restarted" →
      (restart_instance env iid).2 = .ok true →
      (wait_for_state env p.name "Running" p.timeout fuel 1).2 = .ok (some false) →
      mainRun p false env fuel =
        some (Eff.listInstances ::
                ((restart_instance env iid).1 ++
                 (wait_for_state env p.name "Running" p.timeout fuel 1).1),
              .ok ⟨true, j⟩)) := by
  have hobj := get_instance_core_some_isObj (env.listResp 0) env.parse p.name j hlk
  refine ⟨?_, ?_, ?_⟩
  · intro hs hst hact hw
    unfold mainRun
    rw [hlk]
    simp only [optToJson]
    simp [hs, htr, get_status_of_obj j hobj, hst]
    simp only [hiid, hact, hw]
  · intro hs hst hact hw
    unfold mainRun
    rw [hlk]
    simp only [optToJson]
    simp [hs, htr, get_status_of_obj j hobj, hst]
    simp only [hiid, hact, hw]
  · intro hs hact hw
    unfold mainRun
    rw [hlk]
    simp only [optToJson]
    simp [hs, htr]
    simp only [hiid, hact, hw]

/-- C9 witness: a concrete started run whose start call is accepted and
whose poll times out immediately still reports changed=true. -/
theorem poll_timeout_ignored_by_callers_witness :
    mainRun params1 false env1 1 =
      some ([Eff.listInstances, Eff.start (Json.str "123")],
            .ok ⟨true, instStopped⟩) := by
  have h := (poll_timeout_ignored_by_callers params1 env1 1 instStopped
      (Json.str "123") (by rfl) (by rfl) (by rfl)).1
      (by rfl) (by rfl) (by rfl) (by rfl)
  simpa using h

/-- C8: under check mode, for every desired state and every lookup
result, the trace is exactly the single read-only lookup call — no HTTP
mutation is ever issued — and the reported outcome follows the
transition table: the changed flag of the branch when the table defines
one, the fatal not-found error when it does not. -/
theorem check_mode_never_mutates (p : Params) (env : Env) (fuel : Nat)
    (r : Option Json)
    (hlk : get_instance_core (env.listResp 0) env.parse p.name = .ok r) :
    ∃ res, mainRun p true env fuel = some ([Eff.listInstances], res) ∧
      (∀ b, table_changed p.state (optToJson r) = some b →
        ∃ jv, res = .ok (MResult.mk b jv)) ∧
      (table_changed p.state (optToJson r) = none →
        res = .error (.failJson ("Instance " ++ p.name ++ " does not exist"))) := by
  by_cases hp : p.state = "present"
  · by_cases ht : (optToJson r).truthy
    · refine ⟨.ok ⟨false, pyOr (optToJson r) (.obj [])⟩, ?_, ?_, ?_⟩
      · unfold mainRun; rw [hlk]; simp [hp, ht]
      · intro b hb
        simp [table_changed, hp, ht] at hb
        exact ⟨pyOr (optToJson r) (.obj []), by rw [hb]⟩
      · intro hn; simp [table_changed, hp, ht] at hn
    · refine ⟨.ok ⟨true, pyOr (optToJson r) (.obj [])⟩, ?_, ?_, ?_⟩
      · unfold mainRun; rw [hlk]; simp [hp, ht]
      · intro b hb
        simp [table_changed, hp, ht] at hb
        exact ⟨pyOr (optToJson r) (.obj []), by rw [hb]⟩
      · intro hn; simp [table_changed, hp, ht] at hn
  · by_cases ha : p.state = "absent"
    · by_cases ht : (optToJson r).truthy
      · refine ⟨.ok ⟨true, .obj []⟩, ?_, ?_, ?_⟩
        · unfold mainRun; rw [hlk]; simp [hp, ha, ht]
        · intro b hb
          simp [table_changed, hp, ha, ht] at hb
          exact ⟨.obj [], by rw [hb]⟩
        · intro hn; simp [table_changed, hp, ha, ht] at hn
      · refine ⟨.ok ⟨false, .obj []⟩, ?_, ?_, ?_⟩
        · unfold mainRun; rw [hlk]; simp [hp, ha, ht]
        · intro b hb
          simp [table_changed, hp, ha, ht] at hb
          exact ⟨.obj [], by rw [hb]⟩
        · intro hn; simp [table_changed, hp, ha, ht] at hn
    · by_cases hs : p.state = "started"
      · by_cases ht : (optToJson r).truthy
        · obtain ⟨j, rfl⟩ : ∃ j, r = some j := by
            cases r with
            | none => simp [optToJson, Json.truthy] at ht
            | some j => exact ⟨j, rfl⟩
          simp only [optToJson] at ht ⊢
          have hobj := get_instance_core_some_isObj _ _ _ j hlk
          by_cases hv : jsonEqStr (jsonStatus j) "Running" = true
          · refine ⟨.ok ⟨false, j⟩, ?_, ?_, ?_⟩
            · unfold mainRun; rw [hlk]
              simp [hp, ha, hs, ht, optToJson, get_status_of_obj j hobj, hv]
            · intro b hb
              simp [table_changed, hp, ha, hs, ht, hv] at hb
              exact ⟨j, by rw [hb]⟩
            · intro hn; simp [table_changed, hp, ha, hs, ht] at hn
          · refine ⟨.ok ⟨true, j⟩, ?_, ?_, ?_⟩
            · unfold mainRun; rw [hlk]
              simp [hp, ha, hs, ht, optToJson, get_status_of_obj j hobj, hv]
            · intro b hb
              simp [table_changed, hp, ha, hs, ht, hv] at hb
              exact ⟨j, by rw [hb]⟩
            · intro hn; simp [table_changed, hp, ha, hs, ht] at hn
        · refine ⟨.error (.failJson ("Instance " ++ p.name ++ " does not exist")),
            ?_, ?_, ?_⟩
          · unfold mainRun; rw [hlk]; simp [hp, ha, hs, ht]
          · intro b hb
            simp [table_changed, hp, ha, hs, ht] at hb
          · intro _; rfl
      · by_cases hst : p.state = "stopped"
        · by_cases ht : (optToJson r).truthy
          · obtain ⟨j, rfl⟩ : ∃ j, r = some j := by
              cases r with
              | none => simp [optToJson, Json.truthy] at ht
              | some j => exact ⟨j, rfl⟩
            simp only [optToJson] at ht ⊢
            have hobj := get_instance_core_some_isObj _ _ _ j hlk
            by_cases hv : jsonEqStr (jsonStatus j) "Stopped" = true
            · refine ⟨.ok ⟨false, j⟩, ?_, ?_, ?_⟩
              · unfold mainRun; rw [hlk]
                simp [hp, ha, hs, hst, ht, optToJson, get_status_of_obj j hobj, hv]
              · intro b hb
                simp [table_changed, hp, ha, hs, hst, ht, hv] at hb
                exact ⟨j, by rw [hb]⟩
              · intro hn; simp [table_changed, hp, ha, hs, hst, ht] at hn
            · refine ⟨.ok ⟨true, j⟩, ?_, ?_, ?_⟩
              · unfold mainRun; rw [hlk]
                simp [hp, ha, hs, hst, ht, optToJson, get_status_of_obj j hobj, hv]
              · intro b hb
                simp [table_changed, hp, ha, hs, hst, ht, hv] at hb
                exact ⟨j, by rw [hb]⟩
              · intro hn; simp [table_changed, hp, ha, hs, hst, ht] at hn
          · refine ⟨.error (.failJson ("Instance " ++ p.name ++ " does not exist")),
              ?_, ?_, ?_⟩
            · unfold mainRun; rw [hlk]; simp [hp, ha, hs, hst, ht]
            · intro b hb
              simp [table_changed, hp, ha, hs, hst, ht] at hb
            · intro _; rfl
        · by_cases hre : p.state = "restarted"
          · by_cases ht : (optToJson r).truthy
            · refine ⟨.ok ⟨true, optToJson r⟩, ?_, ?_, ?_⟩
              · unfold mainRun; rw [hlk]; simp [hp, ha, hs, hst, hre, ht]
              · intro b hb
                simp [table_changed, hp, ha, hs, hst, hre, ht] at hb
                exact ⟨optToJson r, by rw [hb]⟩
              · intro hn; simp [table_changed, hp, ha, hs, hst, hre, ht] at hn
            · refine ⟨.error (.failJson ("Instance " ++ p.name ++ " does not exist")),
                ?_, ?_, ?_⟩
              · unfold mainRun; rw [hlk]; simp [hp, ha, hs, hst, hre, ht]
              · intro b hb
                simp [table_changed, hp, ha, hs, hst, hre, ht] at hb
              · intro _; rfl
          · refine ⟨.ok ⟨false, .obj []⟩, ?_, ?_, ?_⟩
            · unfold mainRun; rw [hlk]; simp [hp, ha, hs, hst, hre]
            · intro b hb
              simp [table_changed, hp, ha, hs, hst, hre] at hb
              exact ⟨.obj [], by rw [hb]⟩
            · intro hn; simp [table_changed, hp, ha, hs, hst, hre] at hn

/-- C8 witness: a concrete check-mode run for desired state started on a
found stopped instance issues only the lookup call and follows the
table. -/
theorem check_mode_never_mutates_witness :
    ∃ res, mainRun params1 true env1 1 = some ([Eff.listInstances], res) ∧
      (∀ b, table_changed params1.state (optToJson (some instStopped)) = some b →
        ∃ jv, res = .ok (MResult.mk b jv)) ∧
      (table_changed params1.state (optToJson (some instStopped)) = none →
        res = .error (.failJson ("Instance " ++ params1.name ++ " does not exist"))) :=
  check_mode_never_mutates params1 env1 1 (some instStopped) (by rfl)
